import Mathlib

/-!
Verification of the `gocollectanalytics` package: a shallow embedding of
its parameter validation, event construction, aggregated error rendering
and request handling, together with theorems checking the specification.
-/

/-- `url.Values`: a mapping from string keys to lists of string values,
as decoded from a URL query string. An absent key maps to the empty list. -/
abbrev Values := String → List String

/-- `url.Values.Get`: returns the first value associated with the given key;
if the key is absent or its list is empty, returns the empty string. -/
def Values.Get (v : Values) (key : String) : String :=
  (v key).headD ""

/-- The `Event` struct: a user interaction tracked independently of a page. -/
structure Event where
  Site : String
  ClientID : String
  Category : String
  Action : String
  Label : String
  Value : Int
deriving DecidableEq, Repr

/-- `multipleErrors`: a slice of errors, modelled by their message strings
(`errors.New(m).Error() = m`). -/
abbrev multipleErrors := List String

def msgVersion : String := "Version v must equal 1"

def msgTid : String := "Site id tid must be supplied"

def msgHitType : String :=
  "Hit type \x27t\x27 must be set, only type \x27event\x27 is currently supported"

def msgCategory : String := "Events must have a category"

def msgAction : String := "Events must have an action"

/-- `createEvent`: turns the data parameters associated with a hit type of
`event` into an `Event`. `ClientID` and `Value` are left at Go zero values. -/
def createEvent (data : Values) : Event :=
  { Site := Values.Get data "tid", ClientID := "", Category := Values.Get data "ec",
    Action := Values.Get data "ea", Label := Values.Get data "el", Value := 0 }

/-- `validateParameters`: checks a set of `url.Values` against the required
data specification, accumulating one error message per violated rule. -/
def validateParameters (vals : Values) : Bool × multipleErrors :=
  let errs : List String := []
  let errs := if Values.Get vals "v" != "1" then errs ++ [msgVersion] else errs
  let errs := if Values.Get vals "tid" == "" then errs ++ [msgTid] else errs
  let errs := if Values.Get vals "t" != "event" then errs ++ [msgHitType] else errs
  let errs := if Values.Get vals "t" == "event" && Values.Get vals "ec" == "" then
    errs ++ [msgCategory] else errs
  let errs := if Values.Get vals "t" == "event" && Values.Get vals "ea" == "" then
    errs ++ [msgAction] else errs
  if errs.length > 0 then (false, errs) else (true, [])

/-- `multipleErrors.Error`: one error renders as its own text; otherwise the
messages are appended, each preceded by a newline, after `multiple errors:`. -/
def multipleErrors.Error (e : multipleErrors) : String :=
  if e.length = 1 then e.headD ""
  else e.foldl (fun msg err => msg ++ "\n" ++ err) "multiple errors:"

/-- The `Datastore` interface: any place to store data, with a `LogIt`
method returning `none` on success and `some msg` on error. -/
structure Datastore where
  LogIt : Event → Option String

/-- A `Collector` provides handling for receiving data and recording it to
the given store. -/
structure Collector where
  store : Datastore

/-- `NewCollector` constructs a `Collector` with the specified store. -/
def NewCollector (ds : Datastore) : Collector :=
  { store := ds }

/-- `Collector.record` wraps the recording function of the underlying store,
swallowing any storage error into a local string result. -/
def Collector.record (coll : Collector) (datatype : Event) : String :=
  match coll.store.LogIt datatype with
  | some _ => "boo!"
  | none => "ok"

/-- The observable outcome of one call to the `CollectData` handler:
HTTP status, response body, what went to the log, and the event (if any)
handed to the background recording goroutine. -/
structure HandlerOutcome where
  status : Nat
  body : String
  logged : Option String
  submitted : Option Event
deriving DecidableEq, Repr

/-- `Collector.CollectData`: parses and validates querystring data, then
either responds 400 (logging the aggregated error) or builds the event,
hands it to the background `record` goroutine, and responds 200. -/
def Collector.CollectData (_coll : Collector) (vals : Values) : HandlerOutcome :=
  let res := validateParameters vals
  if res.1 != true then
    { status := 400, body := "", logged := some (multipleErrors.Error res.2),
      submitted := none }
  else
    { status := 200, body := "", logged := none, submitted := some (createEvent vals) }

/-- One request handled end to end: the handler outcome paired with the result
of the background `record` call, when one was launched. -/
def handleRequest (coll : Collector) (vals : Values) : HandlerOutcome × Option String :=
  let out := coll.CollectData vals
  (out, out.submitted.map (fun e => coll.record e))

/-- Modelled from the spec: whether rule `i` (0-based, in evaluation order)
of the validation schema is violated by the given parameters. -/
def ruleViolated (vals : Values) : Nat → Bool
  | 0 => Values.Get vals "v" != "1"
  | 1 => Values.Get vals "tid" == ""
  | 2 => Values.Get vals "t" != "event"
  | 3 => Values.Get vals "t" == "event" && Values.Get vals "ec" == ""
  | 4 => Values.Get vals "t" == "event" && Values.Get vals "ea" == ""
  | _ => false

/-- Modelled from the spec: the message attached to rule `i`. -/
def ruleMessage : Nat → String
  | 0 => msgVersion
  | 1 => msgTid
  | 2 => msgHitType
  | 3 => msgCategory
  | 4 => msgAction
  | _ => ""

/-- Modelled from the spec: exactly the message of each violated rule, in the
fixed rule-evaluation order, and no others. -/
def specMessages (vals : Values) : List String :=
  (([0, 1, 2, 3, 4] : List Nat).filter (ruleViolated vals)).map ruleMessage

/-- Parameters of end-to-end scenario 1 of the spec. -/
def scenario1Params : Values := fun k =>
  if k = "v" then ["1"]
  else if k = "tid" then ["site1"]
  else if k = "t" then ["event"]
  else if k = "ec" then ["nav"]
  else if k = "ea" then ["click"]
  else []

/-- Parameters of end-to-end scenario 2 of the spec (missing `ec`). -/
def scenario2Params : Values := fun k =>
  if k = "v" then ["1"]
  else if k = "tid" then ["site1"]
  else if k = "t" then ["event"]
  else if k = "ea" then ["click"]
  else []

/-- Parameters of end-to-end scenario 3 of the spec. -/
def scenario3Params : Values := fun k =>
  if k = "v" then ["2"]
  else if k = "tid" then [""]
  else if k = "t" then ["pageview"]
  else []

example : validateParameters scenario1Params = (true, []) := by decide

example : validateParameters scenario3Params = (false, [msgVersion, msgTid, msgHitType]) := by
  decide

example : createEvent scenario1Params =
    { Site := "site1", ClientID := "", Category := "nav", Action := "click",
      Label := "", Value := 0 } := by decide

lemma allRulesSatisfied_iff (vals : Values) :
    (∀ i, ruleViolated vals i = false) ↔
      (ruleViolated vals 0 = false ∧ ruleViolated vals 1 = false ∧
       ruleViolated vals 2 = false ∧ ruleViolated vals 3 = false ∧
       ruleViolated vals 4 = false) := by
  constructor
  · intro h
    exact ⟨h 0, h 1, h 2, h 3, h 4⟩
  · rintro ⟨a, b, c, d, e⟩ i
    match i with
    | 0 => exact a
    | 1 => exact b
    | 2 => exact c
    | 3 => exact d
    | 4 => exact e
    | n + 5 => rfl

/-- C1: for every parameter set, `validateParameters` is valid iff none of the
five rules is violated, and the error list is exactly the message of each
violated rule, in the fixed rule-evaluation order, and no others. -/
theorem validateParameters_correct (vals : Values) :
    ((validateParameters vals).1 = true ↔ ∀ i, ruleViolated vals i = false) ∧
    (validateParameters vals).2 = specMessages vals := by
  rw [allRulesSatisfied_iff]
  simp only [validateParameters, specMessages, ruleViolated, ruleMessage,
    List.filter_cons, List.filter_nil, List.map_cons, List.map_nil]
  generalize (Values.Get vals "v" != "1") = c0
  generalize (Values.Get vals "tid" == "") = c1
  generalize (Values.Get vals "t" != "event") = c2
  generalize (Values.Get vals "t" == "event" && Values.Get vals "ec" == "") = c3
  generalize (Values.Get vals "t" == "event" && Values.Get vals "ea" == "") = c4
  cases c0 <;> cases c1 <;> cases c2 <;> cases c3 <;> cases c4 <;> decide

lemma data_join_fold (l : List String) (init : String) :
    (List.foldl (fun r s => r ++ s) init l).data =
      init.data ++ (l.map String.data).flatten := by
  induction l generalizing init with
  | nil => simp
  | cons a l ih => simp [ih]

lemma foldl_newline_append (e : List String) (init : String) :
    e.foldl (fun msg err => msg ++ "\n" ++ err) init =
      init ++ String.join (e.map (fun m => "\n" ++ m)) := by
  induction e generalizing init with
  | nil =>
      apply String.ext
      simp
  | cons x xs ih =>
      rw [List.foldl_cons, ih, List.map_cons]
      apply String.ext
      simp [String.join, data_join_fold]

/-- C3: rendering one aggregated error yields just that message; rendering
`N > 1` errors yields `multiple errors:` followed by one newline-prefixed
line per message, in order. -/
theorem multipleErrors_Error_render :
    (∀ m : String, multipleErrors.Error [m] = m) ∧
    (∀ e : multipleErrors, 2 ≤ e.length →
      multipleErrors.Error e =
        "multiple errors:" ++ String.join (e.map (fun m => "\n" ++ m))) := by
  constructor
  · intro m
    simp [multipleErrors.Error]
  · intro e h2
    have hne : e.length ≠ 1 := by omega
    rw [multipleErrors.Error, if_neg hne, foldl_newline_append]

/-- Witness for C3 at concrete inputs. -/
theorem multipleErrors_Error_render_witness :
    multipleErrors.Error ["a"] = "a" ∧
    (2 ≤ (["a", "b"] : List String).length ∧
      multipleErrors.Error ["a", "b"] =
        "multiple errors:" ++
          String.join ((["a", "b"] : List String).map (fun m => "\n" ++ m))) :=
  ⟨multipleErrors_Error_render.1 "a",
    by decide, multipleErrors_Error_render.2 ["a", "b"] (by decide)⟩

/-- C4: `createEvent` maps `Site = tid`, `Category = ec`, `Action = ea`,
`Label = el`, leaves `ClientID` empty and `Value` zero; scenario 1 yields the
expected event. -/
theorem createEvent_fields (data : Values) :
    (createEvent data).Site = Values.Get data "tid" ∧
    (createEvent data).Category = Values.Get data "ec" ∧
    (createEvent data).Action = Values.Get data "ea" ∧
    (createEvent data).Label = Values.Get data "el" ∧
    (createEvent data).ClientID = "" ∧
    (createEvent data).Value = 0 ∧
    createEvent scenario1Params =
      { Site := "site1", ClientID := "", Category := "nav", Action := "click",
        Label := "", Value := 0 } :=
  ⟨rfl, rfl, rfl, rfl, rfl, rfl, by decide⟩

/-- C2: when the hit type is not `event`, the category and action messages are
never emitted; scenario 3 yields exactly the three expected messages. -/
theorem hitType_guards_event_rules (vals : Values)
    (h : Values.Get vals "t" ≠ "event") :
    msgCategory ∉ (validateParameters vals).2 ∧
    msgAction ∉ (validateParameters vals).2 ∧
    validateParameters scenario3Params = (false, [msgVersion, msgTid, msgHitType]) := by
  have hb : (Values.Get vals "t" == "event") = false := by
    simpa using h
  refine ⟨?_, ?_, by decide⟩ <;>
  · simp only [validateParameters, hb, Bool.false_and, Bool.cond_false, if_false,
      Bool.false_eq_true, ite_false]
    generalize (Values.Get vals "v" != "1") = c0
    generalize (Values.Get vals "tid" == "") = c1
    generalize (Values.Get vals "t" != "event") = c2
    cases c0 <;> cases c1 <;> cases c2 <;> decide

/-- Witness for C2 at scenario 3. -/
theorem hitType_guards_event_rules_witness :
    Values.Get scenario3Params "t" ≠ "event" ∧
    (msgCategory ∉ (validateParameters scenario3Params).2 ∧
     msgAction ∉ (validateParameters scenario3Params).2 ∧
     validateParameters scenario3Params = (false, [msgVersion, msgTid, msgHitType])) :=
  ⟨by decide, hitType_guards_event_rules scenario3Params (by decide)⟩

/-- The datastore that always succeeds. -/
def okStore : Datastore :=
  { LogIt := fun _ => none }

/-- The datastore that always fails. -/
def failStore : Datastore :=
  { LogIt := fun _ => some "storage failure" }

/-- C5: on a parameter set failing validation, the handler responds 400 with an
empty body, builds no event, never invokes the store, and routes the aggregated
validation error only to the log. -/
theorem collectData_invalid_behavior (coll : Collector) (vals : Values)
    (h : (validateParameters vals).1 = false) :
    (handleRequest coll vals).1.status = 400 ∧
    (handleRequest coll vals).1.body = "" ∧
    (handleRequest coll vals).1.submitted = none ∧
    (handleRequest coll vals).2 = none ∧
    (handleRequest coll vals).1.logged =
      some (multipleErrors.Error (validateParameters vals).2) := by
  simp [handleRequest, Collector.CollectData, h]

/-- Witness for C5 at scenario 2 (missing `ec`) with a concrete store. -/
theorem collectData_invalid_behavior_witness :
    (validateParameters scenario2Params).1 = false ∧
    ((handleRequest (NewCollector okStore) scenario2Params).1.status = 400 ∧
     (handleRequest (NewCollector okStore) scenario2Params).1.body = "" ∧
     (handleRequest (NewCollector okStore) scenario2Params).1.submitted = none ∧
     (handleRequest (NewCollector okStore) scenario2Params).2 = none ∧
     (handleRequest (NewCollector okStore) scenario2Params).1.logged =
       some (multipleErrors.Error (validateParameters scenario2Params).2)) :=
  ⟨by decide, collectData_invalid_behavior (NewCollector okStore) scenario2Params (by decide)⟩

/-- C6: on a parameter set passing validation, the handler responds 200 with an
empty body; the response part of the outcome is identical for any two stores,
and a storage error is recovered locally by `record` into a plain string. -/
theorem collectData_valid_behavior (coll coll2 : Collector) (vals : Values)
    (h : (validateParameters vals).1 = true) :
    (handleRequest coll vals).1.status = 200 ∧
    (handleRequest coll vals).1.body = "" ∧
    (handleRequest coll vals).1 = (handleRequest coll2 vals).1 ∧
    (∀ e, coll.record e = "ok" ∨ coll.record e = "boo!") := by
  refine ⟨?_, ?_, ?_, ?_⟩
  · simp [handleRequest, Collector.CollectData, h]
  · simp [handleRequest, Collector.CollectData, h]
  · simp [handleRequest, Collector.CollectData, h]
  · intro e
    unfold Collector.record
    cases coll.store.LogIt e <;> simp

/-- Witness for C6 at scenario 1 with the succeeding and the failing store. -/
theorem collectData_valid_behavior_witness :
    (validateParameters scenario1Params).1 = true ∧
    ((handleRequest (NewCollector okStore) scenario1Params).1.status = 200 ∧
     (handleRequest (NewCollector okStore) scenario1Params).1.body = "" ∧
     (handleRequest (NewCollector okStore) scenario1Params).1 =
       (handleRequest (NewCollector failStore) scenario1Params).1 ∧
     (∀ e, (NewCollector okStore).record e = "ok" ∨
       (NewCollector okStore).record e = "boo!")) :=
  ⟨by decide,
    collectData_valid_behavior (NewCollector okStore) (NewCollector failStore)
      scenario1Params (by decide)⟩

lemma validateParameters_congr (p q : Values)
    (h : ∀ k, Values.Get p k = Values.Get q k) :
    validateParameters p = validateParameters q := by
  unfold validateParameters
  simp only [h]

lemma createEvent_congr (p q : Values)
    (h : ∀ k, Values.Get p k = Values.Get q k) :
    createEvent p = createEvent q := by
  unfold createEvent
  simp only [h]

/-- Overriding one key of a parameter set with a fixed list of values. -/
def setParam (p : Values) (key : String) (v : List String) : Values :=
  fun k => if k = key then v else p k

/-- C7: `validateParameters` and `createEvent` are deterministic — equal
parameter sets give identical results — and an absent key is treated exactly
as the empty string: materialising an absent key as `[""]` changes nothing. -/
theorem validate_createEvent_deterministic_total (p q : Values)
    (hpq : ∀ k, p k = q k) (key : String) (habs : p key = []) :
    validateParameters p = validateParameters q ∧
    createEvent p = createEvent q ∧
    validateParameters (setParam p key [""]) = validateParameters p ∧
    createEvent (setParam p key [""]) = createEvent p := by
  have hget : ∀ k, Values.Get p k = Values.Get q k := by
    intro k
    unfold Values.Get
    rw [hpq k]
  have hset : ∀ k, Values.Get (setParam p key [""]) k = Values.Get p k := by
    intro k
    by_cases hk : k = key
    · subst hk
      simp [Values.Get, setParam, habs]
    · simp [Values.Get, setParam, hk]
  exact ⟨validateParameters_congr p q hget, createEvent_congr p q hget,
    validateParameters_congr _ p hset, createEvent_congr _ p hset⟩

/-- Witness for C7: scenario 2 parameters, compared with themselves, with the
absent key `ec` materialised as `[""]`. -/
theorem validate_createEvent_deterministic_total_witness :
    (∀ k, scenario2Params k = scenario2Params k) ∧ scenario2Params "ec" = [] ∧
    (validateParameters scenario2Params = validateParameters scenario2Params ∧
     createEvent scenario2Params = createEvent scenario2Params ∧
     validateParameters (setParam scenario2Params "ec" [""]) =
       validateParameters scenario2Params ∧
     createEvent (setParam scenario2Params "ec" [""]) = createEvent scenario2Params) :=
  ⟨fun _ => rfl, by decide,
    validate_createEvent_deterministic_total scenario2Params scenario2Params
      (fun _ => rfl) "ec" (by decide)⟩

/-- Keeping only the first value of every key of a parameter set. -/
def firstOnly (p : Values) : Values := fun k =>
  match p k with
  | [] => []
  | x :: _ => [x]

/-- C8: both `validateParameters` and `createEvent` read only the first value
of each key: restricting every key to its first value changes neither the
validation result nor the constructed event. -/
theorem firstValue_only_read (p : Values) :
    validateParameters (firstOnly p) = validateParameters p ∧
    createEvent (firstOnly p) = createEvent p := by
  have hget : ∀ k, Values.Get (firstOnly p) k = Values.Get p k := by
    intro k
    unfold Values.Get firstOnly
    cases p k <;> simp
  exact ⟨validateParameters_congr _ p hget, createEvent_congr _ p hget⟩

/-- C9: the validation result depends only on the parameters keyed `v`, `tid`,
`t`, `ec` and `ea`: two parameter sets agreeing on those five keys validate
identically, whatever other keys are present. -/
theorem validate_depends_only_on_schema_keys (p q : Values)
    (h : ∀ k, k ∈ (["v", "tid", "t", "ec", "ea"] : List String) → p k = q k) :
    validateParameters p = validateParameters q := by
  have h1 : Values.Get p "v" = Values.Get q "v" := by
    unfold Values.Get
    rw [h "v" (by simp)]
  have h2 : Values.Get p "tid" = Values.Get q "tid" := by
    unfold Values.Get
    rw [h "tid" (by simp)]
  have h3 : Values.Get p "t" = Values.Get q "t" := by
    unfold Values.Get
    rw [h "t" (by simp)]
  have h4 : Values.Get p "ec" = Values.Get q "ec" := by
    unfold Values.Get
    rw [h "ec" (by simp)]
  have h5 : Values.Get p "ea" = Values.Get q "ea" := by
    unfold Values.Get
    rw [h "ea" (by simp)]
  unfold validateParameters
  simp only [h1, h2, h3, h4, h5]

/-- Scenario 1 parameters extended with extra keys not in the schema. -/
def scenario1ParamsExtra : Values := fun k =>
  if k = "cid" then ["client-9"]
  else if k = "el" then ["homepage"]
  else if k = "unknown" then ["junk"]
  else scenario1Params k

/-- Witness for C9: adding `cid`, `el` and an unknown key leaves the
validation result unchanged. -/
theorem validate_depends_only_on_schema_keys_witness :
    (∀ k, k ∈ (["v", "tid", "t", "ec", "ea"] : List String) →
      scenario1Params k = scenario1ParamsExtra k) ∧
    validateParameters scenario1Params = validateParameters scenario1ParamsExtra :=
  ⟨by decide,
    validate_depends_only_on_schema_keys scenario1Params scenario1ParamsExtra (by decide)⟩

/-- C10: the error list never holds duplicates, has at most four entries, and
the hit-type message never occurs together with the category or action
message. -/
theorem errorList_invariants (vals : Values) :
    ((validateParameters vals).2).Nodup ∧
    ((validateParameters vals).2).length ≤ 4 ∧
    ¬(msgHitType ∈ (validateParameters vals).2 ∧
      (msgCategory ∈ (validateParameters vals).2 ∨
        msgAction ∈ (validateParameters vals).2)) := by
  have hcases : ∀ b : Bool, (Values.Get vals "t" == "event") = b →
      ((validateParameters vals).2).Nodup ∧
      ((validateParameters vals).2).length ≤ 4 ∧
      ¬(msgHitType ∈ (validateParameters vals).2 ∧
        (msgCategory ∈ (validateParameters vals).2 ∨
          msgAction ∈ (validateParameters vals).2)) := by
    intro b hb
    cases b
    · simp only [validateParameters, hb, Bool.false_and, if_false,
        Bool.false_eq_true, ite_false]
      generalize (Values.Get vals "v" != "1") = c0
      generalize (Values.Get vals "tid" == "") = c1
      generalize (Values.Get vals "t" != "event") = c2
      cases c0 <;> cases c1 <;> cases c2 <;> decide
    · have hbne : (Values.Get vals "t" != "event") = false := by
        simp [bne, hb]
      simp only [validateParameters, hb, hbne, Bool.true_and, if_false,
        Bool.false_eq_true, ite_false]
      generalize (Values.Get vals "v" != "1") = c0
      generalize (Values.Get vals "tid" == "") = c1
      generalize (Values.Get vals "ec" == "") = c3
      generalize (Values.Get vals "ea" == "") = c4
      cases c0 <;> cases c1 <;> cases c3 <;> cases c4 <;> decide
  exact hcases (Values.Get vals "t" == "event") rfl
